import Mathlib

/-!
Verification of the core result model of the duplicate-code-detection
library (src/core.py) against its specification.

The module `duplicate_code_detection` (the similarity engine, `run`, and
the `ReturnCode` enumeration) is imported by src/core.py but its source is
not part of the repository snapshot; where a claim depends on it, the
missing part is modelled from the specification and marked as such in its
doc comment.  Everything else is a direct shallow embedding of
src/core.py: Python floats appearing here are only ever constructed from
literals, converted with `float`, and compared with `>=`, so they are
modelled exactly by rationals; Python dicts preserve insertion order and
are modelled as association lists with distinct keys.
-/

/-- Modelled from the spec: the `ReturnCode` enumeration lives in the
module `duplicate_code_detection`, which is not under src/.  Per the spec
(§6) it has `SUCCESS` with value 0 and a nonzero "threshold exceeded"
code whose magnitude may encode additional diagnostic information but
must be positive. -/
inductive ReturnCode where
  | SUCCESS : ReturnCode
  | THRESHOLD_EXCEEDED : Nat → ReturnCode
deriving DecidableEq, Repr

/-- The integer value of a return code; `SUCCESS` is 0 and every
threshold-exceeded code is positive (spec §6). -/
def ReturnCode.value : ReturnCode → Nat
  | ReturnCode.SUCCESS => 0
  | ReturnCode.THRESHOLD_EXCEEDED d => d + 1

/-- One value of the per-file raw-data mapping produced by `run`
(spec §6): either a bare similarity percentage, or — when `show_loc` is
enabled — a nested mapping such as \x7b"Similarity": float, "#LoC": int\x7d,
modelled as an ordered association list with numeric values. -/
inductive SimData where
  | plain : ℚ → SimData
  | nested : List (String × ℚ) → SimData
deriving DecidableEq, Repr

/-- Python dict lookup `d.get(k)` on an ordered association list. -/
def pyGet {α : Type} (k : String) (d : List (String × α)) : Option α :=
  (d.find? (fun kv => kv.1 == k)).map (fun kv => kv.2)

/-- Python key-membership test `k in d`. -/
def pyContains {α : Type} (k : String) (d : List (String × α)) : Bool :=
  d.any (fun kv => kv.1 == k)

/-- The raw-data mapping: file path → (target path or "#LoC") → value. -/
abbrev RawData : Type := List (String × List (String × SimData))

/-- Embeds src/core.py `FileSimilarity`: similarity between two files.
The `loc` fields hold whatever raw value the detector copied in (Python
annotates them `int | None` but never enforces it), hence `Option
SimData` with a bare number embedded as `SimData.plain`. -/
structure FileSimilarity where
  source_file : String
  target_file : String
  similarity_percentage : ℚ
  source_loc : Option SimData := none
  target_loc : Option SimData := none
deriving DecidableEq, Repr

/-- Embeds src/core.py `SimilarityReport`: a per-file report. -/
structure SimilarityReport where
  file_path : String
  similarities : List FileSimilarity := []
  loc_count : Option SimData := none
deriving DecidableEq, Repr

/-- Embeds `SimilarityReport.add_similarity` (src/core.py line 53):
appends one similarity to the report. -/
def SimilarityReport.add_similarity (r : SimilarityReport)
    (s : FileSimilarity) : SimilarityReport :=
  { r with similarities := r.similarities ++ [s] }

/-- Embeds `SimilarityReport.get_high_similarities` (src/core.py line
57): the list comprehension keeping entries with percentage ≥ threshold. -/
def SimilarityReport.get_high_similarities (r : SimilarityReport)
    (threshold : ℚ := 30) : List FileSimilarity :=
  r.similarities.filter (fun s => decide (threshold ≤ s.similarity_percentage))

/-- Embeds src/core.py `DetectionResult`. -/
structure DetectionResult where
  return_code : ReturnCode
  reports : List SimilarityReport := []
  raw_data : RawData := []
deriving DecidableEq, Repr

/-- Embeds `DetectionResult.is_success` (src/core.py line 78). -/
def DetectionResult.is_success (r : DetectionResult) : Bool :=
  r.return_code == ReturnCode.SUCCESS

/-- Embeds `DetectionResult.has_duplications` (src/core.py line 82). -/
def DetectionResult.has_duplications (r : DetectionResult) : Bool :=
  decide (0 < r.reports.length)

/-- Embeds `DetectionResult.get_critical_duplications` (src/core.py
lines 86–94): the loop appending each report's high similarities to a
local accumulator. -/
def DetectionResult.get_critical_duplications (r : DetectionResult)
    (threshold : ℚ := 50) : List FileSimilarity :=
  r.reports.foldl
    (fun critical report => critical ++ report.get_high_similarities threshold)
    []

/-- Embeds src/core.py `DuplicateCodeDetector.__init__` (lines 118–148):
the detector configuration, with the constructor's defaults. -/
structure DuplicateCodeDetector where
  fail_threshold : Int := 100
  ignore_threshold : Int := 15
  file_extensions : List String := ["py", "js", "ts", "java", "cpp", "c", "h"]
  only_code : Bool := false
  show_loc : Bool := true
deriving DecidableEq, Repr

/-- The body of the per-file loop of `_process_result` (src/core.py
lines 231–263): build one `SimilarityReport` from a file's raw entry,
extracting "#LoC" as the report's `loc_count` when `show_loc` is on and
turning every remaining key into a `FileSimilarity`. -/
def DuplicateCodeDetector.processEntry (det : DuplicateCodeDetector)
    (file_path : String) (similarities : List (String × SimData)) :
    SimilarityReport :=
  let report : SimilarityReport := { file_path := file_path }
  let (report, similarities) :=
    if det.show_loc && pyContains "#LoC" similarities then
      ({ report with loc_count := pyGet "#LoC" similarities },
        similarities.filter (fun kv => kv.1 != "#LoC"))
    else
      (report, similarities)
  similarities.foldl
    (fun report kv =>
      let similarity : FileSimilarity :=
        match kv.2 with
        | SimData.nested entries =>
            { source_file := file_path
              target_file := kv.1
              similarity_percentage := (pyGet "Similarity" entries).getD 0
              source_loc := report.loc_count
              target_loc := (pyGet "#LoC" entries).map SimData.plain }
        | SimData.plain x =>
            { source_file := file_path
              target_file := kv.1
              similarity_percentage := x
              source_loc := report.loc_count }
      report.add_similarity similarity)
    report

/-- Embeds `DuplicateCodeDetector._process_result` (src/core.py lines
225–272): process each raw entry into a report, keep only non-empty
reports, and wrap everything with the return code and the untouched raw
mapping. -/
def DuplicateCodeDetector._process_result (det : DuplicateCodeDetector)
    (return_code : ReturnCode) (raw_data : RawData) : DetectionResult :=
  let reports := raw_data.foldl
    (fun reports kv =>
      let report := det.processEntry kv.1 kv.2
      if report.similarities.isEmpty then reports else reports ++ [report])
    []
  { return_code := return_code
    reports := reports
    raw_data := raw_data }

/-- A JSON-like Python value, the codomain of the `to_dict` methods. -/
inductive Json where
  | null : Json
  | bool : Bool → Json
  | num : ℚ → Json
  | str : String → Json
  | arr : List Json → Json
  | obj : List (String × Json) → Json

/-- Serialization of a raw value as it appears inside `to_dict` output. -/
def SimData.toJson : SimData → Json
  | SimData.plain x => Json.num x
  | SimData.nested entries => Json.obj (entries.map (fun kv => (kv.1, Json.num kv.2)))

/-- Serialization of an optional (possibly `None`) raw value. -/
def optLocJson : Option SimData → Json
  | none => Json.null
  | some v => SimData.toJson v

/-- Embeds `FileSimilarity.to_dict` (src/core.py lines 34–42). -/
def FileSimilarity.to_dict (s : FileSimilarity) : Json :=
  Json.obj
    [("source_file", Json.str s.source_file),
     ("target_file", Json.str s.target_file),
     ("similarity_percentage", Json.num s.similarity_percentage),
     ("source_loc", optLocJson s.source_loc),
     ("target_loc", optLocJson s.target_loc)]

/-- Embeds `SimilarityReport.to_dict` (src/core.py lines 61–67). -/
def SimilarityReport.to_dict (r : SimilarityReport) : Json :=
  Json.obj
    [("file_path", Json.str r.file_path),
     ("loc_count", optLocJson r.loc_count),
     ("similarities", Json.arr (r.similarities.map FileSimilarity.to_dict))]

/-- Serialization of the raw-data mapping inside `to_dict` output. -/
def rawDataToJson (d : RawData) : Json :=
  Json.obj (d.map (fun kv => (kv.1, Json.obj (kv.2.map (fun tv => (tv.1, SimData.toJson tv.2))))))

/-- Embeds `DetectionResult.to_dict` (src/core.py lines 100–108). -/
def DetectionResult.to_dict (r : DetectionResult) : Json :=
  Json.obj
    [("return_code", Json.num r.return_code.value),
     ("success", Json.bool r.is_success),
     ("has_duplications", Json.bool r.has_duplications),
     ("reports", Json.arr (r.reports.map SimilarityReport.to_dict)),
     ("raw_data", rawDataToJson r.raw_data)]

/-!
Method-call forms.  Python methods receive the object itself; a call may
in principle mutate it.  The `..._call` definitions embed the methods in
state-passing style, returning the value together with the object as it
stands after the call, so that the frame claim (queries do not mutate
the result) is a statement rather than a typing artifact.  The bodies
mirror the Python method bodies, which assign no attribute of `self`.
-/

/-- State-passing form of `DetectionResult.is_success`: the body only
reads `self.return_code`. -/
def DetectionResult.is_success_call (r : DetectionResult) :
    Bool × DetectionResult :=
  (r.return_code == ReturnCode.SUCCESS, r)

/-- State-passing form of `DetectionResult.has_duplications`: the body
only reads `self.reports`. -/
def DetectionResult.has_duplications_call (r : DetectionResult) :
    Bool × DetectionResult :=
  (decide (0 < r.reports.length), r)

/-- State-passing form of `SimilarityReport.get_high_similarities`: the
list comprehension builds a fresh list from `self.similarities`. -/
def SimilarityReport.get_high_similarities_call (r : SimilarityReport)
    (threshold : ℚ) : List FileSimilarity × SimilarityReport :=
  (r.similarities.filter (fun s => decide (threshold ≤ s.similarity_percentage)), r)

/-- State-passing form of `DetectionResult.get_critical_duplications`:
the loop iterates over `self.reports`, calling each report's
`get_high_similarities` and appending into a local list; the reports
list is reassembled from the post-call reports. -/
def DetectionResult.get_critical_duplications_call (r : DetectionResult)
    (threshold : ℚ) : List FileSimilarity × DetectionResult :=
  let step := r.reports.foldl
    (fun acc report =>
      let (high, report) := report.get_high_similarities_call threshold
      (acc.1 ++ high, acc.2 ++ [report]))
    (([] : List FileSimilarity), ([] : List SimilarityReport))
  (step.1, { r with reports := step.2 })

/-- Modelled from the spec: the Similarity Engine (function `run` of the
module `duplicate_code_detection`) is not under src/.  The spec (§4.4,
§8, glossary) requires a symmetric measure of shared content between two
token sequences, bounded to [0,100], equal to 100 on identical nonempty
normalized content and a defined 0 when a file has no normalized
content; we model it as the Jaccard percentage on token multisets. -/
def similarity (a b : Multiset String) : ℚ :=
  if a = 0 ∧ b = 0 then 0
  else 100 * ((a ∩ b).card : ℚ) / ((a ∪ b).card : ℚ)

/-- The `FileSimilarity` that the loop of `_process_result` builds for
one target entry `kv` of a file `file_path` whose report carries
`loc_count = lc`.  Stated separately from `processEntry` so that the
characterization theorems compare the loop against a `map`. -/
def mkSimilarity (file_path : String) (lc : Option SimData)
    (kv : String × SimData) : FileSimilarity :=
  match kv.2 with
  | SimData.nested entries =>
      { source_file := file_path
        target_file := kv.1
        similarity_percentage := (pyGet "Similarity" entries).getD 0
        source_loc := lc
        target_loc := (pyGet "#LoC" entries).map SimData.plain }
  | SimData.plain x =>
      { source_file := file_path
        target_file := kv.1
        similarity_percentage := x
        source_loc := lc }

/-!
Helper lemmas shared by the claim theorems.
-/

theorem foldl_append_eq_flatten {α β : Type} (f : α → List β) (l : List α)
    (acc : List β) :
    l.foldl (fun a x => a ++ f x) acc = acc ++ (l.map f).flatten := by
  induction l generalizing acc with
  | nil => simp
  | cons x xs ih => simp [ih, List.append_assoc]

theorem get_critical_duplications_eq_flatten (r : DetectionResult) (t : ℚ) :
    r.get_critical_duplications t
      = (r.reports.map (fun rep => rep.get_high_similarities t)).flatten := by
  unfold DetectionResult.get_critical_duplications
  simpa using foldl_append_eq_flatten
    (fun rep => rep.get_high_similarities t) r.reports []

theorem processEntry_foldl (file_path : String) (l : List (String × SimData))
    (report : SimilarityReport) :
    (l.foldl
      (fun report kv =>
        let similarity : FileSimilarity :=
          match kv.2 with
          | SimData.nested entries =>
              { source_file := file_path
                target_file := kv.1
                similarity_percentage := (pyGet "Similarity" entries).getD 0
                source_loc := report.loc_count
                target_loc := (pyGet "#LoC" entries).map SimData.plain }
          | SimData.plain x =>
              { source_file := file_path
                target_file := kv.1
                similarity_percentage := x
                source_loc := report.loc_count }
        report.add_similarity similarity)
      report)
    = { report with similarities :=
          report.similarities ++ l.map (mkSimilarity file_path report.loc_count) } := by
  induction l generalizing report with
  | nil => simp
  | cons kv l ih =>
    rw [List.foldl_cons, ih]
    cases kv with
    | mk target v =>
      cases v <;> simp [SimilarityReport.add_similarity, mkSimilarity]

theorem processEntry_eq (det : DuplicateCodeDetector) (fp : String)
    (m : List (String × SimData)) :
    det.processEntry fp m =
      if det.show_loc && pyContains "#LoC" m then
        { file_path := fp
          loc_count := pyGet "#LoC" m
          similarities := (m.filter (fun kv => kv.1 != "#LoC")).map
            (mkSimilarity fp (pyGet "#LoC" m)) }
      else
        { file_path := fp
          loc_count := none
          similarities := m.map (mkSimilarity fp none) } := by
  unfold DuplicateCodeDetector.processEntry
  by_cases h : (det.show_loc && pyContains "#LoC" m) = true
  · simp only [h, if_true, processEntry_foldl]
    simp
  · simp only [h, if_false, Bool.false_eq_true, processEntry_foldl]
    simp

theorem foldl_conditional_append {α β : Type} (g : α → β) (p : β → Bool)
    (l : List α) (acc : List β) :
    l.foldl (fun acc x => if p (g x) then acc else acc ++ [g x]) acc
      = acc ++ (l.map g).filter (fun b => !p b) := by
  induction l generalizing acc with
  | nil => simp
  | cons x xs ih =>
    rw [List.foldl_cons, ih]
    by_cases h : p (g x) = true <;> simp [h, List.filter_cons]

theorem process_result_reports_eq (det : DuplicateCodeDetector)
    (rc : ReturnCode) (d : RawData) :
    (det._process_result rc d).reports
      = (d.map (fun kv => det.processEntry kv.1 kv.2)).filter
          (fun rep => !rep.similarities.isEmpty) := by
  unfold DuplicateCodeDetector._process_result
  simpa using foldl_conditional_append
    (fun kv => det.processEntry kv.1 kv.2)
    (fun rep => rep.similarities.isEmpty) d []

theorem pyGet_eq_none_of_not_contains {α : Type} (k : String)
    (d : List (String × α)) (h : pyContains k d = false) :
    pyGet k d = none := by
  unfold pyContains at h
  unfold pyGet
  rw [List.find?_eq_none.mpr]
  · rfl
  · intro kv hkv
    simp only [List.any_eq_false] at h
    simpa using h kv hkv

theorem filter_ne_key_of_not_contains {α : Type} (k : String)
    (d : List (String × α)) (h : pyContains k d = false) :
    d.filter (fun kv => kv.1 != k) = d := by
  unfold pyContains at h
  simp only [List.any_eq_false] at h
  rw [List.filter_eq_self]
  intro kv hkv
  simpa using h kv hkv

theorem get_critical_call_foldl (t : ℚ) (l : List SimilarityReport)
    (acc : List FileSimilarity × List SimilarityReport) :
    (l.foldl
      (fun acc report =>
        let (high, report) := report.get_high_similarities_call t
        (acc.1 ++ high, acc.2 ++ [report]))
      acc)
    = (acc.1 ++ (l.map (fun rep => rep.get_high_similarities t)).flatten,
        acc.2 ++ l) := by
  induction l generalizing acc with
  | nil => simp
  | cons rep l ih =>
    rw [List.foldl_cons, ih]
    simp [SimilarityReport.get_high_similarities_call,
      SimilarityReport.get_high_similarities, List.append_assoc]

/-!
Claim theorems.
-/

/-- C1: for every `DetectionResult` and threshold `t`,
`get_critical_duplications t` is the flattened list of all entries across
all reports whose `similarity_percentage` is ≥ `t` (inclusive boundary),
in report order and, within each report, in the report's insertion
order. -/
theorem C1_get_critical_duplications_flattens (r : DetectionResult) (t : ℚ) :
    r.get_critical_duplications t
      = (r.reports.map (fun rep =>
          rep.similarities.filter
            (fun s => decide (t ≤ s.similarity_percentage)))).flatten := by
  rw [get_critical_duplications_eq_flatten]
  rfl

/-- C2: whenever `t1 ≤ t2`, every entry of `get_critical_duplications t2`
is also an entry of `get_critical_duplications t1` — the result is
anti-monotone (a superset) in the threshold. -/
theorem C2_threshold_antimonotone (r : DetectionResult) (t1 t2 : ℚ)
    (h : t1 ≤ t2) :
    ∀ s ∈ r.get_critical_duplications t2, s ∈ r.get_critical_duplications t1 := by
  intro s hs
  rw [get_critical_duplications_eq_flatten] at hs ⊢
  rw [List.mem_flatten] at hs ⊢
  rcases hs with ⟨inner, hinner, hsin⟩
  rcases List.mem_map.mp hinner with ⟨rep, hrep, rfl⟩
  refine ⟨rep.get_high_similarities t1, List.mem_map.mpr ⟨rep, hrep, rfl⟩, ?_⟩
  unfold SimilarityReport.get_high_similarities at hsin ⊢
  rcases List.mem_filter.mp hsin with ⟨hmem, hle⟩
  refine List.mem_filter.mpr ⟨hmem, ?_⟩
  rw [decide_eq_true_iff] at hle ⊢
  exact le_trans h hle

/-- C5: `_process_result` stores the raw mapping unchanged, and
re-running it with the same detector configuration on the stored
`raw_data` reproduces the same reports list. -/
theorem C5_raw_data_roundtrip (det : DuplicateCodeDetector)
    (rc rc₂ : ReturnCode) (d : RawData) :
    (det._process_result rc d).raw_data = d
    ∧ (det._process_result rc₂ (det._process_result rc d).raw_data).reports
        = (det._process_result rc d).reports :=
  ⟨rfl, rfl⟩

/-- C6: `is_success` is true exactly when the return code is `SUCCESS`,
the code whose value is 0; any nonzero threshold-exceeded code makes it
false. -/
theorem C6_is_success_iff_success_code (r : DetectionResult) :
    (r.is_success = true ↔ r.return_code = ReturnCode.SUCCESS)
    ∧ (r.is_success = true ↔ r.return_code.value = 0)
    ∧ (r.return_code.value ≠ 0 → r.is_success = false) := by
  rcases r with ⟨rc, reports, raw⟩
  cases rc <;> simp [DetectionResult.is_success, ReturnCode.value, beq_iff_eq]

/-- C7: `to_dict` produces exactly the document
\x7breturn_code, success, has_duplications, reports, raw_data\x7d, with
`success = is_success()`, `has_duplications = has_duplications()`, each
report serialized as \x7bfile_path, loc_count, similarities\x7d, and each
similarity as \x7bsource_file, target_file, similarity_percentage,
source_loc, target_loc\x7d. -/
theorem C7_to_dict_document_shape (r : DetectionResult) :
    r.to_dict = Json.obj
      [("return_code", Json.num r.return_code.value),
       ("success", Json.bool r.is_success),
       ("has_duplications", Json.bool r.has_duplications),
       ("reports", Json.arr (r.reports.map (fun rep => Json.obj
          [("file_path", Json.str rep.file_path),
           ("loc_count", optLocJson rep.loc_count),
           ("similarities", Json.arr (rep.similarities.map (fun s => Json.obj
              [("source_file", Json.str s.source_file),
               ("target_file", Json.str s.target_file),
               ("similarity_percentage", Json.num s.similarity_percentage),
               ("source_loc", optLocJson s.source_loc),
               ("target_loc", optLocJson s.target_loc)])))]))),
       ("raw_data", rawDataToJson r.raw_data)] := by
  simp [DetectionResult.to_dict, SimilarityReport.to_dict,
    FileSimilarity.to_dict]

/-- C3: a report appears in the output of `_process_result` exactly when
its similarity list is non-empty — the reports list is the non-empty
sublist of the per-file processed reports, every emitted report is
non-empty, every non-empty processed report is emitted, and (with
`show_loc` on) a raw entry holding only the "#LoC" key yields no
report. -/
theorem C3_no_empty_reports (det : DuplicateCodeDetector)
    (rc : ReturnCode) (d : RawData) :
    ((det._process_result rc d).reports
        = (d.map (fun kv => det.processEntry kv.1 kv.2)).filter
            (fun rep => !rep.similarities.isEmpty))
    ∧ (∀ rep ∈ (det._process_result rc d).reports, rep.similarities ≠ [])
    ∧ (∀ kv ∈ d, (det.processEntry kv.1 kv.2).similarities ≠ []
        → det.processEntry kv.1 kv.2 ∈ (det._process_result rc d).reports)
    ∧ (det.show_loc = true
        → ∀ (fp : String) (v : SimData),
            (det._process_result rc [(fp, [("#LoC", v)])]).reports = []) := by
  refine ⟨process_result_reports_eq det rc d, ?_, ?_, ?_⟩
  · intro rep hrep
    rw [process_result_reports_eq] at hrep
    have h := (List.mem_filter.mp hrep).2
    simpa using h
  · intro kv hkv hne
    rw [process_result_reports_eq]
    refine List.mem_filter.mpr ⟨List.mem_map.mpr ⟨kv, hkv, rfl⟩, ?_⟩
    simpa using hne
  · intro hsl fp v
    rw [process_result_reports_eq]
    simp [processEntry_eq, hsl, pyContains]

/-- C4: with `show_loc` enabled, `_process_result` takes the value at
the literal key "#LoC" of a file's raw entry as the report's
`loc_count` and excludes that key from the similarity list; every
remaining key becomes a `FileSimilarity` with that key as target, where
a nested mapping yields the percentage from its "Similarity" key and
`target_loc` from its "#LoC" key, and a plain value is converted to
float as the percentage (the shape `mkSimilarity` spells out). -/
theorem C4_show_loc_extraction (det : DuplicateCodeDetector)
    (h : det.show_loc = true) (fp : String) (m : List (String × SimData)) :
    (det.processEntry fp m).loc_count = pyGet "#LoC" m
    ∧ (det.processEntry fp m).similarities
        = (m.filter (fun kv => kv.1 != "#LoC")).map
            (mkSimilarity fp (pyGet "#LoC" m)) := by
  rw [processEntry_eq]
  by_cases hc : pyContains "#LoC" m = true
  · simp [h, hc]
  · have hc' : pyContains "#LoC" m = false := by simpa using hc
    simp [h, hc', pyGet_eq_none_of_not_contains _ _ hc',
      filter_ne_key_of_not_contains _ _ hc']

/-- C8: the derived query methods, embedded in state-passing form,
return the object unchanged: `is_success`, `has_duplications`,
`get_critical_duplications` and each report's `get_high_similarities`
leave every field as it was, and their returned values agree with the
pure definitions. -/
theorem C8_queries_do_not_mutate (r : DetectionResult)
    (rep : SimilarityReport) (t : ℚ) :
    r.is_success_call.2 = r
    ∧ r.has_duplications_call.2 = r
    ∧ (rep.get_high_similarities_call t).2 = rep
    ∧ (r.get_critical_duplications_call t).2 = r
    ∧ r.is_success_call.1 = r.is_success
    ∧ r.has_duplications_call.1 = r.has_duplications
    ∧ (rep.get_high_similarities_call t).1 = rep.get_high_similarities t
    ∧ (r.get_critical_duplications_call t).1 = r.get_critical_duplications t := by
  refine ⟨rfl, rfl, rfl, ?_, rfl, rfl, rfl, ?_⟩
  · unfold DetectionResult.get_critical_duplications_call
    rw [get_critical_call_foldl]
    simp
  · unfold DetectionResult.get_critical_duplications_call
    rw [get_critical_call_foldl, get_critical_duplications_eq_flatten]
    simp

/-- C9: the similarity measure is symmetric — the percentage computed
for the pair (A, B) equals the one computed for (B, A). -/
theorem C9_similarity_symmetric (a b : Multiset String) :
    similarity a b = similarity b a := by
  by_cases h : a = 0 ∧ b = 0
  · simp [similarity, h.1, h.2]
  · have h' : ¬(b = 0 ∧ a = 0) := fun hh => h ⟨hh.2, hh.1⟩
    simp [similarity, h, h', Multiset.inter_comm, Multiset.union_comm]

/-- C10: in every result built by `_process_result`, every
`FileSimilarity` stored in a report has `source_file` equal to the
report's `file_path` and `source_loc` equal to the report's
`loc_count`. -/
theorem C10_source_fields_match_report (det : DuplicateCodeDetector)
    (rc : ReturnCode) (d : RawData) :
    ∀ rep ∈ (det._process_result rc d).reports, ∀ s ∈ rep.similarities,
      s.source_file = rep.file_path ∧ s.source_loc = rep.loc_count := by
  intro rep hrep s hs
  rw [process_result_reports_eq] at hrep
  rcases List.mem_filter.mp hrep with ⟨hmem, _⟩
  rcases List.mem_map.mp hmem with ⟨kv, hkv, rfl⟩
  rw [processEntry_eq] at hs ⊢
  by_cases hc : (det.show_loc && pyContains "#LoC" kv.2) = true
  · rw [if_pos hc] at hs ⊢
    simp only at hs ⊢
    rcases List.mem_map.mp hs with ⟨tv, htv, rfl⟩
    rcases tv with ⟨target, v⟩
    cases v <;> simp [mkSimilarity]
  · rw [if_neg hc] at hs ⊢
    simp only at hs ⊢
    rcases List.mem_map.mp hs with ⟨tv, htv, rfl⟩
    rcases tv with ⟨target, v⟩
    cases v <;> simp [mkSimilarity]

/-!
Witnesses: each instantiates its claim theorem at a concrete input,
discharging the theorem's hypotheses there.
-/

/-- Witness for C2 at a result holding one similarity of 60%, with
thresholds 10 ≤ 50. -/
theorem C2_witness :
    (10 : ℚ) ≤ 50
    ∧ (⟨"a.py", "b.py", 60, none, none⟩ : FileSimilarity)
        ∈ (⟨ReturnCode.SUCCESS,
            [⟨"a.py", [⟨"a.py", "b.py", 60, none, none⟩], none⟩], []⟩ :
            DetectionResult).get_critical_duplications 50
    ∧ (⟨"a.py", "b.py", 60, none, none⟩ : FileSimilarity)
        ∈ (⟨ReturnCode.SUCCESS,
            [⟨"a.py", [⟨"a.py", "b.py", 60, none, none⟩], none⟩], []⟩ :
            DetectionResult).get_critical_duplications 10 :=
  ⟨by decide, by decide,
   C2_threshold_antimonotone _ 10 50 (by decide) _ (by decide)⟩

/-- Witness for C3: a 40% entry yields an emitted report, and an entry
holding only "#LoC" yields none. -/
theorem C3_witness :
    (("a.py", [("b.py", SimData.plain 40)])
        ∈ ([("a.py", [("b.py", SimData.plain 40)])] : RawData)
      ∧ (({} : DuplicateCodeDetector).processEntry "a.py"
          [("b.py", SimData.plain 40)]).similarities ≠ [])
    ∧ ({} : DuplicateCodeDetector).processEntry "a.py"
        [("b.py", SimData.plain 40)]
        ∈ (({} : DuplicateCodeDetector)._process_result ReturnCode.SUCCESS
            [("a.py", [("b.py", SimData.plain 40)])]).reports
    ∧ (({} : DuplicateCodeDetector)._process_result ReturnCode.SUCCESS
        [("x.py", [("#LoC", SimData.plain 12)])]).reports = [] :=
  ⟨⟨by decide, by decide⟩,
   (C3_no_empty_reports {} ReturnCode.SUCCESS
      [("a.py", [("b.py", SimData.plain 40)])]).2.2.1
    ("a.py", [("b.py", SimData.plain 40)]) (by decide) (by decide),
   (C3_no_empty_reports {} ReturnCode.SUCCESS
      [("x.py", [("#LoC", SimData.plain 12)])]).2.2.2
    rfl "x.py" (SimData.plain 12)⟩

/-- Witness for C4 on an entry with a "#LoC" of 7 and one nested target
entry. -/
theorem C4_witness :
    ({} : DuplicateCodeDetector).show_loc = true
    ∧ (({} : DuplicateCodeDetector).processEntry "a.py"
        [("#LoC", SimData.plain 7),
         ("b.py", SimData.nested [("Similarity", 55), ("#LoC", 9)])]).loc_count
        = some (SimData.plain 7)
    ∧ (({} : DuplicateCodeDetector).processEntry "a.py"
        [("#LoC", SimData.plain 7),
         ("b.py", SimData.nested [("Similarity", 55), ("#LoC", 9)])]).similarities
        = [⟨"a.py", "b.py", 55, some (SimData.plain 7), some (SimData.plain 9)⟩] :=
  ⟨rfl,
   (C4_show_loc_extraction {} rfl "a.py"
      [("#LoC", SimData.plain 7),
       ("b.py", SimData.nested [("Similarity", 55), ("#LoC", 9)])]).1,
   (C4_show_loc_extraction {} rfl "a.py"
      [("#LoC", SimData.plain 7),
       ("b.py", SimData.nested [("Similarity", 55), ("#LoC", 9)])]).2⟩

/-- Witness for C6 at a threshold-exceeded code of value 1. -/
theorem C6_witness :
    (⟨ReturnCode.THRESHOLD_EXCEEDED 0, [], []⟩ :
        DetectionResult).return_code.value ≠ 0
    ∧ (⟨ReturnCode.THRESHOLD_EXCEEDED 0, [], []⟩ :
        DetectionResult).is_success = false :=
  ⟨by decide,
   (C6_is_success_iff_success_code
      ⟨ReturnCode.THRESHOLD_EXCEEDED 0, [], []⟩).2.2 (by decide)⟩

/-- Witness for C10 at a one-file, one-target raw mapping. -/
theorem C10_witness :
    ((⟨"a.py", [⟨"a.py", "b.py", 40, none, none⟩], none⟩ : SimilarityReport)
        ∈ (({} : DuplicateCodeDetector)._process_result ReturnCode.SUCCESS
            [("a.py", [("b.py", SimData.plain 40)])]).reports
      ∧ (⟨"a.py", "b.py", 40, none, none⟩ : FileSimilarity)
          ∈ (⟨"a.py", [⟨"a.py", "b.py", 40, none, none⟩], none⟩ :
              SimilarityReport).similarities)
    ∧ (⟨"a.py", "b.py", 40, none, none⟩ : FileSimilarity).source_file
        = (⟨"a.py", [⟨"a.py", "b.py", 40, none, none⟩], none⟩ :
            SimilarityReport).file_path
      ∧ (⟨"a.py", "b.py", 40, none, none⟩ : FileSimilarity).source_loc
        = (⟨"a.py", [⟨"a.py", "b.py", 40, none, none⟩], none⟩ :
            SimilarityReport).loc_count :=
  ⟨⟨by decide, by decide⟩,
   C10_source_fields_match_report {} ReturnCode.SUCCESS
     [("a.py", [("b.py", SimData.plain 40)])]
     ⟨"a.py", [⟨"a.py", "b.py", 40, none, none⟩], none⟩ (by decide)
     ⟨"a.py", "b.py", 40, none, none⟩ (by decide)⟩
